import Mathlib

/-!
# Verification of the Game of Life service (gol repository)

Shallow embedding of the core algorithms of the repository:

* `bevy-game-of-life/src/systems/game_of_life.rs` — the pure generation
  engine (`should_cell_survive`, neighbor counting, `wrap_coordinate`,
  `apply_game_of_life_rules`, `apply_game_of_life_rules_bounded`);
* `gol-bevy/src/resources/simulations.rs` — `SimulationData`
  (`create_simulation`, `add_pattern`, `get_live_cell_count`);
* `gol-bevy/src/grpc/service.rs` — the gRPC handlers
  (`create_simulation`, `update_simulation`, `step_simulation`,
  `stream_simulation`).

Rust `HashSet<(i32,i32)>` is modelled as `List (Int × Int)` with
membership (`List.contains`); `HashMap<(i32,i32), CellState>` as an
association list with replace-on-insert; Rust's truncated `%` on `i32`
as `Int.tmod`.  Machine-integer widths are modelled by `Int`/`Nat`
except where truncation is performed explicitly in the source
(the `as u8` cast in `update_simulation`, modelled as `% 256`).
-/

namespace GoL

/-! ## Generation engine (bevy-game-of-life/src/systems/game_of_life.rs) -/

abbrev Coord := Int × Int

/-- `GridBoundary` from `components/grid.rs`: width, height, wrap flag. -/
structure GridBoundary where
  width : Int
  height : Int
  wrap_edges : Bool
deriving DecidableEq, Repr

/-- `should_cell_survive` (game_of_life.rs:5-14): live cell with 2 or 3
neighbors survives, dead cell with exactly 3 neighbors is born. -/
def should_cell_survive (currently_alive : Bool) (neighbor_count : Nat) : Bool :=
  match currently_alive, neighbor_count with
  | true, 2 => true
  | true, 3 => true
  | false, 3 => true
  | _, _ => false

/-- The eight Moore-neighborhood offsets, in the `dx`-outer/`dy`-inner
order of the Rust loops, with `(0,0)` skipped. -/
def neighborOffsets : List Coord :=
  [(-1, -1), (-1, 0), (-1, 1), (0, -1), (0, 1), (1, -1), (1, 0), (1, 1)]

/-- All nine offsets, `(0,0)` included (candidate generation inserts the
cell itself as well). -/
def allOffsets : List Coord :=
  [(-1, -1), (-1, 0), (-1, 1), (0, -1), (0, 0), (0, 1), (1, -1), (1, 0), (1, 1)]

/-- One dimension of `wrap_coordinate` (game_of_life.rs:222-238):
Rust computes `if coord < 0 { dim + (coord % dim) } else { coord % dim }`
where `%` is the truncated remainder (`Int.tmod`). -/
def wrapDim (coord dim : Int) : Int :=
  if coord < 0 then dim + Int.tmod coord dim else Int.tmod coord dim

/-- `wrap_coordinate` (game_of_life.rs:222-238). -/
def wrap_coordinate (position : Coord) (boundary : GridBoundary) : Coord :=
  (wrapDim position.1 boundary.width, wrapDim position.2 boundary.height)

/-- `is_valid_coordinate` (game_of_life.rs:217-220). -/
def is_valid_coordinate (position : Coord) (boundary : GridBoundary) : Bool :=
  decide (0 ≤ position.1) && decide (position.1 < boundary.width) &&
  decide (0 ≤ position.2) && decide (position.2 < boundary.height)

/-- The spec's wrapping formula, `((coord % dimension) + dimension) %
dimension` with Rust's truncated `%`, stated for comparison with
`wrapDim` (refinement target from spec §4.1). -/
def specWrapDim (coord dim : Int) : Int :=
  Int.tmod (Int.tmod coord dim + dim) dim

/-- `count_live_neighbors` (game_of_life.rs:17-40): number of the eight
neighbor positions present in the live set (unbounded grid). -/
def count_live_neighbors (position : Coord) (live_cells : List Coord) : Nat :=
  (neighborOffsets.filter fun d =>
    live_cells.contains (position.1 + d.1, position.2 + d.2)).length

/-- `count_live_neighbors_bounded` (game_of_life.rs:43-93): with
`wrap_edges` the neighbor coordinate is wrapped exactly as in
`wrap_coordinate`; without it, out-of-bounds neighbors are skipped. -/
def count_live_neighbors_bounded (position : Coord) (live_cells : List Coord)
    (boundary : GridBoundary) : Nat :=
  (neighborOffsets.filter fun d =>
    let nx := position.1 + d.1
    let ny := position.2 + d.2
    if boundary.wrap_edges then
      live_cells.contains (wrapDim nx boundary.width, wrapDim ny boundary.height)
    else
      decide (0 ≤ nx) && decide (nx < boundary.width) &&
      decide (0 ≤ ny) && decide (ny < boundary.height) &&
      live_cells.contains (nx, ny)).length

/-- `count_live_neighbors_with_wrapping` (game_of_life.rs:96-108). -/
def count_live_neighbors_with_wrapping (position : Coord) (live_cells : List Coord)
    (grid_width grid_height : Int) : Nat :=
  count_live_neighbors_bounded position live_cells
    ⟨grid_width, grid_height, true⟩

/-- Candidate set of `apply_game_of_life_rules` (game_of_life.rs:120-134):
every live cell together with its full 3×3 neighborhood.  The Rust
`HashSet` is modelled by deduplication. -/
def cells_to_check (live : List Coord) : List Coord :=
  (live.flatMap fun c => allOffsets.map fun d => (c.1 + d.1, c.2 + d.2)).dedup

/-- `apply_game_of_life_rules` (game_of_life.rs:111-157).  The result is
a duplicate-free list; all claims about it are stated up to set
equality, matching the unordered Rust `Vec` built from a `HashSet`. -/
def apply_game_of_life_rules (live_cells : List Coord) (wrap_edges : Bool)
    (grid_width grid_height : Option Int) : List Coord :=
  (cells_to_check live_cells).filter fun position =>
    let currently_alive := live_cells.contains position
    let neighbor_count :=
      match wrap_edges, grid_width, grid_height with
      | true, some gw, some gh =>
          count_live_neighbors_with_wrapping position live_cells gw gh
      | _, _, _ => count_live_neighbors position live_cells
    should_cell_survive currently_alive neighbor_count

/-- Candidate set of `apply_game_of_life_rules_bounded`
(game_of_life.rs:167-193): the raw live cell is always inserted; each of
its nine neighborhood offsets is inserted wrapped (when wrapping) or
only when in bounds (when not). -/
def boundedCellsToCheck (live : List Coord) (boundary : GridBoundary) : List Coord :=
  (live.flatMap fun c =>
    c :: allOffsets.filterMap fun d =>
      let nx := c.1 + d.1
      let ny := c.2 + d.2
      if boundary.wrap_edges then
        some (wrap_coordinate (nx, ny) boundary)
      else if 0 ≤ nx ∧ nx < boundary.width ∧ 0 ≤ ny ∧ ny < boundary.height then
        some (nx, ny)
      else none).dedup

/-- `apply_game_of_life_rules_bounded` (game_of_life.rs:160-214):
without wrapping, out-of-bounds candidate positions are skipped in the
rule-application loop. -/
def apply_game_of_life_rules_bounded (live_cells : List Coord)
    (boundary : GridBoundary) : List Coord :=
  (boundedCellsToCheck live_cells boundary).filter fun position =>
    if !boundary.wrap_edges &&
        (decide (position.1 < 0) || decide (boundary.width ≤ position.1) ||
         decide (position.2 < 0) || decide (boundary.height ≤ position.2)) then
      false
    else
      should_cell_survive (live_cells.contains position)
        (count_live_neighbors_bounded position live_cells boundary)

/-- `generate_blinker_pattern` (game_of_life.rs:251-257). -/
def generate_blinker_pattern (offset_x offset_y : Int) : List Coord :=
  [(1 + offset_x, 0 + offset_y), (1 + offset_x, 1 + offset_y), (1 + offset_x, 2 + offset_y)]

/-! ## Simulation data model (gol-bevy/src/resources/simulations.rs,
gol-bevy/src/components/cell_state.rs) -/

/-- `CellState` (cell_state.rs): per-cell liveness flag, generation tag
and cached neighbor count. -/
structure CellState where
  alive : Bool
  generation : Nat
  neighbor_count : Nat
deriving DecidableEq, Repr

/-- `CellState::new()`: alive, generation 0, zero neighbors. -/
def CellState.new : CellState := ⟨true, 0, 0⟩

/-- The `cells` field, `HashMap<(i32,i32), CellState>`, as an
association list with replace-on-insert semantics. -/
abbrev CellMap := List (Coord × CellState)

/-- `HashMap::contains_key`. -/
def mapContainsKey (m : CellMap) (k : Coord) : Bool :=
  m.any fun e => e.1 == k

/-- `HashMap::insert` (replace on duplicate key). -/
def mapInsert (m : CellMap) (k : Coord) (v : CellState) : CellMap :=
  (k, v) :: m.filter fun e => !(e.1 == k)

/-- `HashMap::get`. -/
def mapGet (m : CellMap) (k : Coord) : Option CellState :=
  (m.find? fun e => e.1 == k).map (·.2)

/-- `SimulationData` (simulations.rs:20-28); `created_at` is a wall-clock
timestamp with no algorithmic role and is not modelled. -/
structure SimulationData where
  id : String
  generation : Nat
  width : Int
  height : Int
  cells : CellMap
  is_running : Bool
deriving DecidableEq, Repr

/-- `SimulationData::get_live_cell_count` (simulations.rs:92-94). -/
def SimulationData.get_live_cell_count (sim : SimulationData) : Nat :=
  (sim.cells.filter fun e => e.2.alive).length

set_option linter.unusedVariables false in
/-- The `SimulationData` constructed by `Simulations::create_simulation`
(simulations.rs:38-52).  The fresh UUID is passed in as `id`; the
`initial_pattern` argument appears in the source signature and is
ignored by its body (`cells` is `HashMap::new()`). -/
def create_simulation_data (id : String) (width height : Int)
    (initial_pattern : Option String) : SimulationData :=
  { id := id, generation := 0, width := width, height := height
    cells := [], is_running := false }

/-- Loop body of `SimulationData::add_pattern` (simulations.rs:99-109):
translated cell is inserted (and counted) only when in bounds and not
already a key. -/
def addPatternStep (width height offset_x offset_y : Int)
    (acc : CellMap × Nat) (c : Coord) : CellMap × Nat :=
  if 0 ≤ c.1 + offset_x ∧ c.1 + offset_x < width ∧
      0 ≤ c.2 + offset_y ∧ c.2 + offset_y < height then
    if mapContainsKey acc.1 (c.1 + offset_x, c.2 + offset_y) then acc
    else (mapInsert acc.1 (c.1 + offset_x, c.2 + offset_y) CellState.new, acc.2 + 1)
  else acc

/-- The `for` loop of `add_pattern` as a recursion over the pattern. -/
def addPatternLoop (width height offset_x offset_y : Int) :
    List Coord → CellMap × Nat → CellMap × Nat
  | [], acc => acc
  | c :: rest, acc =>
      addPatternLoop width height offset_x offset_y rest
        (addPatternStep width height offset_x offset_y acc c)

/-- `SimulationData::add_pattern` (simulations.rs:96-112): returns the
mutated simulation and `cells_added`. -/
def add_pattern (sim : SimulationData) (pattern : List Coord)
    (offset_x offset_y : Int) : SimulationData × Nat :=
  let res := addPatternLoop sim.width sim.height offset_x offset_y pattern
    (sim.cells, 0)
  ({ sim with cells := res.1 }, res.2)

/-! ## gRPC service handlers (gol-bevy/src/grpc/service.rs) -/

/-- The two `tonic::Status` codes raised by the service. -/
inductive GrpcError
  | invalidArgument (msg : String)
  | notFound (msg : String)
deriving DecidableEq, Repr

/-- `create_simulation` handler (service.rs:37-73): dimension
validation, empty-name-to-`None` conversion, then
`Simulations::create_simulation`.  The generated UUID is a parameter. -/
def service_create_simulation (id : String) (width height : Int)
    (initial_pattern : String) : Except GrpcError SimulationData :=
  if width ≤ 0 ∨ height ≤ 0 then
    .error (.invalidArgument "Width and height must be positive")
  else if 1000 < width ∨ 1000 < height then
    .error (.invalidArgument "Grid size too large (max 1000x1000)")
  else
    .ok (create_simulation_data id width height
      (if initial_pattern = "" then none else some initial_pattern))

/-- A `Cell` message of the proto, as consumed by `update_simulation`. -/
structure CellMsg where
  x : Int
  y : Int
  alive : Bool
  neighbors : Int
deriving DecidableEq, Repr

/-- `update_simulation` handler (service.rs:104-148) applied to the
looked-up simulation: a positive requested generation replaces the
counter; a non-empty cell list clears the map and re-inserts the
in-bounds cells (`neighbors as u8` truncates modulo 256). -/
def update_simulation_on (sim : SimulationData) (reqGeneration : Int)
    (reqCells : List CellMsg) : SimulationData :=
  let sim1 :=
    if 0 < reqGeneration then { sim with generation := reqGeneration.toNat }
    else sim
  if reqCells.isEmpty then sim1
  else
    let newMap := reqCells.foldl (fun m cell =>
      if 0 ≤ cell.x ∧ cell.x < sim1.width ∧ 0 ≤ cell.y ∧ cell.y < sim1.height then
        mapInsert m (cell.x, cell.y)
          ⟨cell.alive, sim1.generation, (Int.emod cell.neighbors 256).toNat⟩
      else m) []
    { sim1 with cells := newMap }

/-- The eight neighbor positions in the array order of
service.rs:186-190. -/
def neighbors8 (x y : Int) : List Coord :=
  [(x - 1, y - 1), (x, y - 1), (x + 1, y - 1),
   (x - 1, y), (x + 1, y),
   (x - 1, y + 1), (x, y + 1), (x + 1, y + 1)]

/-- `*neighbor_counts.entry(k).or_insert(0) += 1` on the counts map
(association list). -/
def bumpCount (m : List (Coord × Nat)) (k : Coord) : List (Coord × Nat) :=
  if m.any (fun e => e.1 == k) then
    m.map fun e => if e.1 == k then (e.1, e.2 + 1) else e
  else m ++ [(k, 1)]

/-- Neighbor-count accumulation of the step loop (service.rs:182-198):
every alive cell contributes one count to each of its in-bounds
neighbor positions. -/
def computeNeighborCounts (sim : SimulationData) : List (Coord × Nat) :=
  sim.cells.foldl (fun acc e =>
    if e.2.alive then
      (neighbors8 e.1.1 e.1.2).foldl (fun acc2 n =>
        if 0 ≤ n.1 ∧ n.1 < sim.width ∧ 0 ≤ n.2 ∧ n.2 < sim.height then
          bumpCount acc2 n
        else acc2) acc
    else acc) []

/-- One iteration of the step loop (service.rs:178-223): increment the
generation, build the neighbor counts, apply the rule to every counted
position, and replace the cell map. -/
def stepOnce (sim : SimulationData) : SimulationData :=
  let sim1 := { sim with generation := sim.generation + 1 }
  let counts := computeNeighborCounts sim1
  let newCells := counts.foldl (fun m e =>
    let currently_alive := ((mapGet sim1.cells e.1).map (·.alive)).getD false
    let will_be_alive :=
      if currently_alive then e.2 == 2 || e.2 == 3 else e.2 == 3
    if will_be_alive then
      mapInsert m e.1 ⟨true, sim1.generation, e.2⟩
    else m) []
  { sim1 with cells := newCells }

/-- `StepResponse` of the proto. -/
structure StepResponse where
  generation : Nat
  live_cells : Nat
  changed_cells : Nat
deriving DecidableEq, Repr

/-- `step_simulation` handler (service.rs:167-235) applied to the
looked-up simulation: clamp `steps` to at least 1, run `stepOnce` that
many times, report `|initial - final|` live-cell counts as
`changed_cells`. -/
def step_simulation_on (sim : SimulationData) (reqSteps : Int) :
    SimulationData × StepResponse :=
  let steps : Nat := if reqSteps ≤ 0 then 1 else reqSteps.toNat
  let initial_cells := sim.get_live_cell_count
  let sim' := stepOnce^[steps] sim
  let final_cells := sim'.get_live_cell_count
  (sim', { generation := sim'.generation, live_cells := final_cells
           changed_cells := ((initial_cells : Int) - (final_cells : Int)).natAbs })

/-- `load_pattern` handler (service.rs:237-264) applied to the looked-up
simulation: delegates to `add_pattern` with the request position. -/
def load_pattern_on (sim : SimulationData) (pattern : List Coord)
    (posX posY : Int) : SimulationData × Nat :=
  add_pattern sim pattern posX posY

/-! ## Stream publisher (service.rs:268-370) -/

/-- One emitted stream element: an update event (generation, live-cell
count, ended flag) or the terminal NotFound error. -/
inductive StreamEvent
  | update (generation : Nat) (live_cells : Nat) (ended : Bool)
  | errorNotFound
deriving DecidableEq, Repr

/-- An element after which the stream loop `break`s. -/
def StreamEvent.isTerminal : StreamEvent → Bool
  | .errorNotFound => true
  | .update _ _ ended => ended

/-- The auto-step performed inside a stream tick (service.rs:299-343):
the body inlines the same generation transition as the step handler's
loop (increment generation, count neighbors of alive in-bounds cells,
apply the rule, replace the map). -/
def streamTickStep (sim : SimulationData) : SimulationData :=
  stepOnce sim

/-- The stream loop (service.rs:287-366) as a trace function.  The
environment supplies the registry lookup result at each tick (`none`
when the simulation was deleted concurrently); each tick emits one
element, and the loop `break`s after a NotFound error or after an
update whose live-cell count is zero (`simulation_ended`). -/
def stream_trace (auto_step : Bool) : List (Option SimulationData) → List StreamEvent
  | [] => []
  | none :: _ => [.errorNotFound]
  | some sim :: rest =>
      let sim1 := if auto_step then streamTickStep sim else sim
      let live := sim1.get_live_cell_count
      let ev := StreamEvent.update sim1.generation live (live == 0)
      if live == 0 then [ev] else ev :: stream_trace auto_step rest

/-! ## Theorems -/

/-- C1: `should_cell_survive(a, n)` returns `true` exactly when
(`a` is true and `n` is 2 or 3) or (`a` is false and `n` is 3), for
every aliveness flag `a` and every neighbor count `0 ≤ n ≤ 8`. -/
theorem C1_should_cell_survive_rule (a : Bool) (n : Nat) (h : n ≤ 8) :
    should_cell_survive a n = true ↔
      ((a = true ∧ (n = 2 ∨ n = 3)) ∨ (a = false ∧ n = 3)) := by
  interval_cases n <;> revert a <;> decide

/-- Witness for C1 at `a = false`, `n = 3` (reproduction case). -/
theorem C1_witness :
    (3 : Nat) ≤ 8 ∧
    (should_cell_survive false 3 = true ↔
      ((false = true ∧ ((3:Nat) = 2 ∨ (3:Nat) = 3)) ∨ (false = false ∧ (3:Nat) = 3))) :=
  ⟨by decide, C1_should_cell_survive_rule false 3 (by decide)⟩

/-- C2 counterexample: `create_simulation` with valid 10×10 dimensions
and the non-empty pattern name `"glider"` leaves the new simulation's
cell set empty — the claim says it is seeded with the pattern's cells
rather than being left empty. -/
theorem C2_counterexample :
    service_create_simulation "sim-1" 10 10 "glider" =
      Except.ok { id := "sim-1", generation := 0, width := 10, height := 10,
                  cells := [], is_running := false } ∧
    ("glider" : String) ≠ "" :=
  ⟨rfl, by decide⟩

/-- C2 amended: for every CreateSimulation call with valid dimensions,
whatever the `initial_pattern` name, the new simulation has a fresh id,
zero generation, the requested dimensions and an empty cell set — the
pattern name is accepted but ignored. -/
theorem C2_amended_create_ignores_pattern (id pat : String) (w h : Int)
    (hw : 0 < w) (hh : 0 < h) (hwmax : w ≤ 1000) (hhmax : h ≤ 1000) :
    service_create_simulation id w h pat =
      Except.ok { id := id, generation := 0, width := w, height := h,
                  cells := [], is_running := false } := by
  unfold service_create_simulation
  rw [if_neg (by omega), if_neg (by omega)]
  rfl

/-- Witness for the amended C2 at a 12×8 grid with pattern name
`"glider"`. -/
theorem C2_amended_witness :
    (0 : Int) < 12 ∧ (0 : Int) < 8 ∧ (12 : Int) ≤ 1000 ∧ (8 : Int) ≤ 1000 ∧
    service_create_simulation "sim-1" 12 8 "glider" =
      Except.ok { id := "sim-1", generation := 0, width := 12, height := 8,
                  cells := [], is_running := false } :=
  ⟨by decide, by decide, by decide, by decide,
    C2_amended_create_ignores_pattern "sim-1" "glider" 12 8
      (by decide) (by decide) (by decide) (by decide)⟩

/-- C3: at the negative exact multiple `x = -3` of `width = 3`,
`wrap_coordinate` returns `(3, 0)` — outside `[0,3)×[0,3)` and rejected
by the code's own `is_valid_coordinate` — whereas the claimed formula
`((coord % dimension) + dimension) % dimension` yields `0`.  The code
computes `dimension + (coord % dimension)` for negative coordinates,
which equals `dimension` when the truncated remainder is `0`. -/
theorem C3_wrap_negative_multiple_bug :
    wrap_coordinate (-3, 0) ⟨3, 3, true⟩ = (3, 0) ∧
    specWrapDim (-3) 3 = 0 ∧
    is_valid_coordinate (wrap_coordinate (-3, 0) ⟨3, 3, true⟩) ⟨3, 3, true⟩ = false := by
  decide

/-- C6: the blinker `{(1,0),(1,1),(1,2)}` maps under the unbounded rule
to exactly `{(0,1),(1,1),(2,1)}`, and applying the rule again returns
exactly the original set — a period-2 round trip. -/
theorem C6_blinker_period_two :
    (apply_game_of_life_rules [(1,0),(1,1),(1,2)] false none none).toFinset =
      ({(0,1), (1,1), (2,1)} : Finset Coord) ∧
    (apply_game_of_life_rules
        (apply_game_of_life_rules [(1,0),(1,1),(1,2)] false none none)
        false none none).toFinset =
      ({(1,0), (1,1), (1,2)} : Finset Coord) := by
  decide

/-- C7: on a 3×3 grid with edge wrapping, one bounded transition of the
blinker `{(1,0),(1,1),(1,2)}` yields exactly all nine coordinates of
`[0,3)×[0,3)`. -/
theorem C7_wrapped_blinker_fills_grid :
    (apply_game_of_life_rules_bounded [(1,0),(1,1),(1,2)] ⟨3, 3, true⟩).toFinset =
      ({(0,0), (0,1), (0,2), (1,0), (1,1), (1,2), (2,0), (2,1), (2,2)} :
        Finset Coord) := by
  decide

/-- Each iteration of the step loop increments the generation by one. -/
theorem stepOnce_generation (sim : SimulationData) :
    (stepOnce sim).generation = sim.generation + 1 := rfl

/-- `n` iterations of the step loop increment the generation by `n`. -/
theorem stepOnce_iterate_generation (n : Nat) (sim : SimulationData) :
    (stepOnce^[n] sim).generation = sim.generation + n := by
  induction n generalizing sim with
  | zero => simp
  | succ k ih =>
      rw [Function.iterate_succ_apply, ih, stepOnce_generation]
      omega

/-- The clamped step count of `step_simulation` equals `max s 1`. -/
theorem step_clamp_eq_max (s : Int) :
    (if s ≤ 0 then 1 else s.toNat) = (max s 1).toNat := by
  rcases le_or_lt s 0 with hs | hs
  · rw [if_pos hs, max_eq_right (by omega)]
    rfl
  · rw [if_neg (by omega)]
    rw [max_eq_left (by omega)]

/-- C4 counterexample: a simulation at generation 5 receives an
UpdateSimulation with requested generation 1 (positive); the counter
drops to 1, strictly below its previous value. -/
theorem C4_counterexample :
    (update_simulation_on
      { id := "s", generation := 5, width := 10, height := 10,
        cells := [], is_running := false } 1 []).generation < 5 := by
  decide

/-- C4 amended: the generation counter is 0 at creation and does not
decrease under StepSimulation, LoadPattern, or a stream auto-step;
UpdateSimulation, however, replaces it with any requested positive
value, which may be smaller than the current one. -/
theorem C4_amended_generation_monotonic (id pat : String) (w h : Int)
    (sim : SimulationData) (s : Int) (pattern : List Coord) (ox oy : Int) :
    (create_simulation_data id w h (some pat)).generation = 0 ∧
    sim.generation ≤ (step_simulation_on sim s).1.generation ∧
    (load_pattern_on sim pattern ox oy).1.generation = sim.generation ∧
    sim.generation ≤ (streamTickStep sim).generation := by
  refine ⟨rfl, ?_, rfl, ?_⟩
  · show sim.generation ≤ (stepOnce^[if s ≤ 0 then 1 else s.toNat] sim).generation
    rw [stepOnce_iterate_generation]
    omega
  · rw [streamTickStep, stepOnce_generation]
    omega

/-- C5: StepSimulation with requested count `s` performs exactly
`max(s,1)` transitions of the step loop, increases the generation by
exactly that number, and reports `changed_cells` as the absolute
difference between the live-cell counts before the first and after the
last transition of the whole call. -/
theorem C5_step_semantics (sim : SimulationData) (s : Int) :
    (step_simulation_on sim s).1 = stepOnce^[(max s 1).toNat] sim ∧
    (step_simulation_on sim s).1.generation = sim.generation + (max s 1).toNat ∧
    (step_simulation_on sim s).2.changed_cells =
      ((sim.get_live_cell_count : Int) -
        ((step_simulation_on sim s).1.get_live_cell_count : Int)).natAbs := by
  have h1 : (step_simulation_on sim s).1 = stepOnce^[(max s 1).toNat] sim := by
    show stepOnce^[if s ≤ 0 then 1 else s.toNat] sim = _
    rw [step_clamp_eq_max]
  refine ⟨h1, ?_, rfl⟩
  rw [h1, stepOnce_iterate_generation]

/-- Inserting a key makes `contains_key` true for it. -/
theorem mapContainsKey_mapInsert_self (m : CellMap) (k : Coord) (v : CellState) :
    mapContainsKey (mapInsert m k v) k = true := by
  simp [mapContainsKey, mapInsert]

/-- Insertion never removes an existing key. -/
theorem mapContainsKey_mapInsert_of (m : CellMap) (k k' : Coord) (v : CellState)
    (h : mapContainsKey m k' = true) :
    mapContainsKey (mapInsert m k v) k' = true := by
  by_cases hk : k' = k
  · rw [hk]
    exact mapContainsKey_mapInsert_self m k v
  · simp only [mapContainsKey, List.any_eq_true] at h ⊢
    rcases h with ⟨e, hem, he⟩
    refine ⟨e, ?_, he⟩
    simp only [mapInsert, List.mem_cons, List.mem_filter]
    refine Or.inr ⟨hem, ?_⟩
    have he' : e.1 = k' := by simpa using he
    simp [he', hk]

/-- One `add_pattern` loop iteration never removes a key. -/
theorem addPatternStep_preserves_key (w h ox oy : Int) (acc : CellMap × Nat)
    (c : Coord) (k : Coord) (hk : mapContainsKey acc.1 k = true) :
    mapContainsKey (addPatternStep w h ox oy acc c).1 k = true := by
  unfold addPatternStep
  split
  · split
    · exact hk
    · exact mapContainsKey_mapInsert_of _ _ _ _ hk
  · exact hk

/-- The whole `add_pattern` loop never removes a key. -/
theorem addPatternLoop_preserves_key (w h ox oy : Int) (p : List Coord)
    (acc : CellMap × Nat) (k : Coord) (hk : mapContainsKey acc.1 k = true) :
    mapContainsKey (addPatternLoop w h ox oy p acc).1 k = true := by
  induction p generalizing acc with
  | nil => exact hk
  | cons c rest ih =>
      rw [addPatternLoop]
      exact ih _ (addPatternStep_preserves_key w h ox oy acc c k hk)

/-- After the `add_pattern` loop, every in-bounds translated pattern
cell is a key of the resulting map. -/
theorem addPatternLoop_covers (w h ox oy : Int) (p : List Coord)
    (c : Coord)
    (hb : 0 ≤ c.1 + ox ∧ c.1 + ox < w ∧ 0 ≤ c.2 + oy ∧ c.2 + oy < h) :
    ∀ acc : CellMap × Nat, c ∈ p →
      mapContainsKey (addPatternLoop w h ox oy p acc).1 (c.1 + ox, c.2 + oy) = true := by
  induction p with
  | nil => intro acc hc; cases hc
  | cons c0 rest ih =>
      intro acc hc
      rw [addPatternLoop]
      rcases List.mem_cons.mp hc with rfl | hmem
      · apply addPatternLoop_preserves_key
        unfold addPatternStep
        rw [if_pos hb]
        split
        · assumption
        · exact mapContainsKey_mapInsert_self _ _ _
      · exact ih _ hmem

/-- The `add_pattern` loop is a no-op (on both map and counter) when
every in-bounds translated pattern cell is already a key. -/
theorem addPatternLoop_noop (w h ox oy : Int) (p : List Coord) :
    ∀ acc : CellMap × Nat,
      (∀ c ∈ p, (0 ≤ c.1 + ox ∧ c.1 + ox < w ∧ 0 ≤ c.2 + oy ∧ c.2 + oy < h) →
        mapContainsKey acc.1 (c.1 + ox, c.2 + oy) = true) →
      addPatternLoop w h ox oy p acc = acc := by
  induction p with
  | nil => intro acc _; rfl
  | cons c0 rest ih =>
      intro acc hall
      rw [addPatternLoop]
      have hstep : addPatternStep w h ox oy acc c0 = acc := by
        unfold addPatternStep
        split
        · rw [if_pos (hall c0 (List.mem_cons_self c0 rest) (by assumption))]
        · rfl
      rw [hstep]
      exact ih acc fun c hc hb => hall c (List.mem_cons_of_mem c0 hc) hb

/-- C8: calling `add_pattern` a second time with an identical pattern
and offset adds zero cells and leaves the cell map exactly as it was
after the first call. -/
theorem C8_add_pattern_idempotent (sim : SimulationData) (pattern : List Coord)
    (ox oy : Int) :
    (add_pattern (add_pattern sim pattern ox oy).1 pattern ox oy).2 = 0 ∧
    (add_pattern (add_pattern sim pattern ox oy).1 pattern ox oy).1.cells =
      (add_pattern sim pattern ox oy).1.cells := by
  have hno :
      addPatternLoop sim.width sim.height ox oy pattern
        ((addPatternLoop sim.width sim.height ox oy pattern (sim.cells, 0)).1, 0) =
        ((addPatternLoop sim.width sim.height ox oy pattern (sim.cells, 0)).1, 0) :=
    addPatternLoop_noop sim.width sim.height ox oy pattern _
      fun c hc hb => addPatternLoop_covers sim.width sim.height ox oy pattern c hb _ hc
  constructor
  · show (addPatternLoop sim.width sim.height ox oy pattern
      ((addPatternLoop sim.width sim.height ox oy pattern (sim.cells, 0)).1, 0)).2 = 0
    rw [hno]
  · show (addPatternLoop sim.width sim.height ox oy pattern
      ((addPatternLoop sim.width sim.height ox oy pattern (sim.cells, 0)).1, 0)).1 =
      (addPatternLoop sim.width sim.height ox oy pattern (sim.cells, 0)).1
    rw [hno]

/-- C10: an UpdateSimulation call with an empty cells list leaves the
cell map (and every other field) unchanged; only the generation is
replaced, and only when the requested generation is positive. -/
theorem C10_update_empty_cells_frame (sim : SimulationData) (g : Int) :
    update_simulation_on sim g [] =
      { sim with generation := if 0 < g then g.toNat else sim.generation } := by
  unfold update_simulation_on
  by_cases hg : 0 < g <;> simp [hg]

/-- C9: a stream subscription never continues past a terminal element:
every element of the emitted sequence other than the last one is
non-terminal, so nothing follows an `ended=true` update or a NotFound
error. -/
theorem C9_stream_terminal_is_last (auto_step : Bool)
    (inputs : List (Option SimulationData)) (ev : StreamEvent)
    (hev : ev ∈ (stream_trace auto_step inputs).dropLast) :
    ev.isTerminal = false := by
  induction inputs with
  | nil => simp [stream_trace] at hev
  | cons o rest ih =>
      cases o with
      | none => simp [stream_trace] at hev
      | some sim =>
          simp only [stream_trace] at hev
          by_cases hl :
            (if auto_step then streamTickStep sim else sim).get_live_cell_count = 0
          · simp [hl] at hev
          · simp only [hl, beq_iff_eq, if_false] at hev
            rcases htr : stream_trace auto_step rest with _ | ⟨e1, tr⟩
            · rw [htr] at hev
              simp at hev
            · rw [htr] at hev
              rw [List.dropLast_cons₂] at hev
              rcases List.mem_cons.mp hev with rfl | hmem
              · simp [StreamEvent.isTerminal, hl]
              · exact ih (htr ▸ hmem)

/-- Witness for C9: a two-tick environment (live simulation, then
deleted) yields the trace `[update, NotFound]`; its only non-last
element is the non-terminal update event. -/
theorem C9_witness :
    (StreamEvent.update 0 1 false).isTerminal = false :=
  C9_stream_terminal_is_last false
    [some { id := "w", generation := 0, width := 3, height := 3,
            cells := [((1, 1), CellState.new)], is_running := false },
     none]
    (.update 0 1 false) (by decide)

end GoL
